import Mathlib

/-!
Verification of the FMP MCP server (`mcp-server.py`).

The file gives a shallow embedding of the three functions of the program:
`make_fmp_request` (the request gateway), `get_stock_quote` and
`get_company_profile` (the two tool formatters), together with the pieces of
Python runtime behaviour they rely on (dictionary lookup with defaults,
format-spec mini-language for `:,` and `:.2f`, string slicing, `str.upper`
and `str.strip`).  The network is modelled as an oracle mapping the request
URL to an HTTP outcome; JSON values decoded from a response body are
modelled by `FmpResult`.  Numeric JSON fields are modelled as integers.
-/

namespace StockMcp

/-- A Python runtime value as it occurs in a decoded JSON record: a string or
a number (numbers are modelled as integers). -/
inductive PyVal where
  | str (s : String)
  | int (n : Int)
deriving DecidableEq

/-- A decoded JSON object, as an association list of fields. -/
abbrev Record := List (String × PyVal)

/-- Python dictionary key lookup on a record (first matching key). -/
def rlookup : Record → String → Option PyVal
  | [], _ => none
  | (k, v) :: rest, key => if k = key then some v else rlookup rest key

/-- Python `record.get(key, default)`. -/
def rget (p : Record) (k : String) (d : PyVal) : PyVal :=
  (rlookup p k).getD d

/-- Python `str(v)` as used by an f-string field with no format spec. -/
def pyStr : PyVal → String
  | .str s => s
  | .int n => toString n

/-- Insert a comma after every third character of a reversed digit string;
helper for Python thousands grouping. -/
def commaRev : List Char → List Char
  | a :: b :: c :: d :: rest => a :: b :: c :: ',' :: commaRev (d :: rest)
  | l => l

/-- Python `format(n, ",")` on an integer: decimal digits grouped by
thousands with commas. -/
def intComma (n : Int) : String :=
  (if n < 0 then "-" else "") ++
    String.mk ((commaRev (toString n.natAbs).data.reverse).reverse)

/-- Python f-string conversion with format spec `:,`.  On a string value the
interpreter raises `ValueError`, because the comma option is only valid for
numeric presentation types; the error is modelled as `Except.error`. -/
def pyFormatComma : PyVal → Except String String
  | .int n => .ok (intComma n)
  | .str _ => .error "ValueError: Cannot specify comma with type str"

/-- Python f-string conversion with format spec `:.2f`.  Integers render with
two fractional digits; on a string value the interpreter raises
`ValueError` (unknown format code). -/
def pyFormatFixed2 : PyVal → Except String String
  | .int n => .ok (toString n ++ ".00")
  | .str _ => .error "ValueError: Unknown format code f for type str"

/-- Python slicing `v[:500]` as applied to the description field: the first
500 characters of a string; slicing an integer raises `TypeError`. -/
def pySlice500 : PyVal → Except String String
  | .str s => .ok (String.mk (s.data.take 500))
  | .int _ => .error "TypeError: int is not subscriptable"

/-- Whitespace stripped by Python `str.strip()` (the ASCII part of the
Python whitespace set), identified by code point. -/
def pyIsSpace (c : Char) : Bool :=
  decide (c.toNat = 32 ∨ c.toNat = 9 ∨ c.toNat = 10 ∨ c.toNat = 13 ∨
    c.toNat = 11 ∨ c.toNat = 12)

/-- Python `str.upper()` on the character list of a string, using the basic
latin case map. -/
def pyUpperChars (l : List Char) : List Char :=
  l.map Char.toUpper

/-- Python `str.strip()` on the character list of a string: drop whitespace
from the front, then from the back. -/
def pyStripChars (l : List Char) : List Char :=
  List.rdropWhile pyIsSpace (l.dropWhile pyIsSpace)

/-- The symbol normalization `symbol.upper().strip()` performed by both tool
functions (lines 46 and 87 of `mcp-server.py`). -/
def normalizeSymbol (s : String) : String :=
  String.mk (pyStripChars (pyUpperChars s.data))

/-- The decoded body of a successful HTTP response: either a JSON object
(as for the error sentinels) or a JSON list of records (as the two FMP
endpoints return). -/
inductive FmpResult where
  | dict (d : Record)
  | list (items : List Record)
deriving DecidableEq

/-- Result of decoding the body of a 2xx response: a JSON value, or a body
that is not valid JSON. -/
inductive JsonBody where
  | invalid
  | valid (v : FmpResult)
deriving DecidableEq

/-- Outcome of `requests.get(url, ...)` followed by `raise_for_status()`:
either a `requests.RequestException` (transport failure, timeout or non-2xx
status) or a 2xx response with some body. -/
inductive HttpOutcome where
  | exn (msg : String)
  | success (body : JsonBody)
deriving DecidableEq

/-- The fixed base URL of the service (line 16). -/
def BASE_URL : String := "https://financialmodelingprep.com/api/v3"

/-- The absolute request URL built from the base URL and the endpoint path
fragment (line 24). -/
def fmpUrl (endpoint : String) : String :=
  BASE_URL ++ "/" ++ endpoint

/-- Python truthiness test `not API_KEY` on the optional environment
variable: true when the variable is unset or the empty string. -/
def keyMissing : Option String → Bool
  | none => true
  | some s => s.isEmpty

/-- The detail text of the `requests.exceptions.JSONDecodeError` raised by
`response.json()` on a body that is not valid JSON, as interpolated by
`str(e)` in the except clause. -/
def jsonDecodeErrorDetail : String := "Expecting value: line 1 column 1 (char 0)"

/-- Embedding of `make_fmp_request` (lines 19-32).  The network is an oracle
`net` from the request URL to an `HttpOutcome`.  A missing credential
short-circuits to the error dictionary without consulting `net`; a raised
`requests.RequestException` is converted to the error dictionary.  A 2xx
response whose body is not valid JSON makes `response.json()` raise
`requests.exceptions.JSONDecodeError`; since requests 2.27 that class is a
subclass of `requests.RequestException`, so the except clause on line 31
catches it too and returns the error dictionary with the decode failure's
message as the details.  The function therefore returns a value on every
path; the `Except` in the result type is only the raise channel of the
callers. -/
def make_fmp_request (apiKey : Option String) (endpoint : String)
    (net : String → HttpOutcome) : Except String FmpResult :=
  if keyMissing apiKey then
    .ok (.dict [("error", .str "FMP_API_KEY environment variable not set")])
  else
    match net (fmpUrl endpoint) with
    | .exn msg => .ok (.dict [("error", .str ("API request failed: " ++ msg))])
    | .success .invalid =>
      .ok (.dict [("error", .str ("API request failed: " ++ jsonDecodeErrorDetail))])
    | .success (.valid v) => .ok v

/-- The f-string template of `get_stock_quote` (lines 62-71), rendered from
the first record of the response.  Fields are evaluated in template order;
a failing conversion raises, modelled by `Except`. -/
def renderQuote (symbol : String) (q : Record) : Except String String := do
  let price ← pyFormatFixed2 (rget q "price" (.int 0))
  let change ← pyFormatFixed2 (rget q "change" (.int 0))
  let changesPct ← pyFormatFixed2 (rget q "changesPercentage" (.int 0))
  let volume ← pyFormatComma (rget q "volume" (.int 0))
  let marketCap ← pyFormatComma (rget q "marketCap" (.int 0))
  let previousClose ← pyFormatFixed2 (rget q "previousClose" (.int 0))
  let dayLow ← pyFormatFixed2 (rget q "dayLow" (.int 0))
  let dayHigh ← pyFormatFixed2 (rget q "dayHigh" (.int 0))
  return "Stock Quote: " ++ pyStr (rget q "name" (.str "N/A")) ++ " (" ++
    symbol ++ ")\n\nCurrent Price: $" ++ price ++ "\nChange: $" ++ change ++
    " (" ++ changesPct ++ "%)\nVolume: " ++ volume ++ "\nMarket Cap: $" ++
    marketCap ++ "\nP/E Ratio: " ++ pyStr (rget q "pe" (.str "N/A")) ++
    "\nPrevious Close: $" ++ previousClose ++ "\nDay Range: $" ++ dayLow ++
    " - $" ++ dayHigh ++ "\n"

/-- The market-cap field of the profile template (line 108):
`{profile.get('mktCap', 0):,}`. -/
def profileMktCap (p : Record) : Except String String :=
  pyFormatComma (rget p "mktCap" (.int 0))

/-- The employees field of the profile template (line 109):
`{profile.get('fullTimeEmployees', 'N/A'):,}` — thousands grouping applied
to a value whose fallback is the string `"N/A"`. -/
def profileEmployees (p : Record) : Except String String :=
  pyFormatComma (rget p "fullTimeEmployees" (.str "N/A"))

/-- The description section of the profile template (line 114):
`{profile.get('description', 'No description available')[:500]}...` — the
first 500 characters of the description (or of the fallback), always
followed by a literal ellipsis. -/
def profileDescriptionSection (p : Record) : Except String String := do
  let d ← pySlice500 (rget p "description" (.str "No description available"))
  return d ++ "..."

/-- The price field of the profile template (line 118):
`{profile.get('price', 0):.2f}`. -/
def profilePrice (p : Record) : Except String String :=
  pyFormatFixed2 (rget p "price" (.int 0))

/-- The f-string template of `get_company_profile` (lines 103-120), rendered
from the first record of the response.  Fields are evaluated in template
order; a failing conversion raises, modelled by `Except`. -/
def renderProfile (symbol : String) (p : Record) : Except String String := do
  let mktCap ← profileMktCap p
  let employees ← profileEmployees p
  let desc ← profileDescriptionSection p
  let price ← profilePrice p
  return "Company Profile: " ++ pyStr (rget p "companyName" (.str "N/A")) ++
    " (" ++ symbol ++ ")\n\nIndustry: " ++
    pyStr (rget p "industry" (.str "N/A")) ++ "\nSector: " ++
    pyStr (rget p "sector" (.str "N/A")) ++ "\nCountry: " ++
    pyStr (rget p "country" (.str "N/A")) ++ "\nMarket Cap: $" ++ mktCap ++
    "\nEmployees: " ++ employees ++ "\nWebsite: " ++
    pyStr (rget p "website" (.str "N/A")) ++ "\nCEO: " ++
    pyStr (rget p "ceo" (.str "N/A")) ++ "\n\nDescription:\n" ++ desc ++
    "\n\nStock Info:\nExchange: " ++
    pyStr (rget p "exchangeShortName" (.str "N/A")) ++
    "\nCurrent Price: $" ++ price ++ "\nBeta: " ++
    pyStr (rget p "beta" (.str "N/A")) ++ "\n"

/-- The result inspection of `get_stock_quote` (lines 52-59): the
`"error" in data` test, the emptiness test, and the `data[0]` access.  On a
dictionary, `"error" in data` is key membership and `data[0]` raises
`KeyError`; on a list, `"error" in data` is False (the elements are
records, never the string `"error"`) and `data[0]` takes the head. -/
def formatQuote (symbol : String) : FmpResult → Except String String
  | .dict d =>
    match rlookup d "error" with
    | some v => .ok ("Error: " ++ pyStr v)
    | none =>
      if d.isEmpty then .ok ("No data found for symbol: " ++ symbol)
      else .error "KeyError: 0"
  | .list [] => .ok ("No data found for symbol: " ++ symbol)
  | .list (q :: _) => renderQuote symbol q

/-- The result inspection of `get_company_profile` (lines 93-100); same
shape as `formatQuote` with the profile wording and template. -/
def formatProfile (symbol : String) : FmpResult → Except String String
  | .dict d =>
    match rlookup d "error" with
    | some v => .ok ("Error: " ++ pyStr v)
    | none =>
      if d.isEmpty then .ok ("No profile found for symbol: " ++ symbol)
      else .error "KeyError: 0"
  | .list [] => .ok ("No profile found for symbol: " ++ symbol)
  | .list (p :: _) => renderProfile symbol p

/-- Embedding of the tool `get_stock_quote` (lines 36-73): normalize the
symbol, call the gateway on `quote/<symbol>`, inspect and render.  An
exception raised anywhere propagates to the caller as `Except.error`. -/
def get_stock_quote (symbol : String) (apiKey : Option String)
    (net : String → HttpOutcome) : Except String String :=
  let sym := normalizeSymbol symbol
  (make_fmp_request apiKey ("quote/" ++ sym) net).bind (formatQuote sym)

/-- Embedding of the tool `get_company_profile` (lines 77-122): normalize
the symbol, call the gateway on `profile/<symbol>`, inspect and render. -/
def get_company_profile (symbol : String) (apiKey : Option String)
    (net : String → HttpOutcome) : Except String String :=
  let sym := normalizeSymbol symbol
  (make_fmp_request apiKey ("profile/" ++ sym) net).bind (formatProfile sym)

/-! ### Helper lemmas -/

theorem except_bind_ok {ε α β : Type} (a : α) (f : α → Except ε β) :
    (Except.ok a : Except ε α) >>= f = f a := rfl

theorem except_bind_err {ε α β : Type} (e : ε) (f : α → Except ε β) :
    (Except.error e : Except ε α) >>= f = Except.error e := rfl

theorem char_toNat_ofNat {n : Nat} (h : n.isValidChar) :
    (Char.ofNat n).toNat = n := by
  simp only [Char.ofNat]
  rw [dif_pos h]
  rfl

theorem char_toUpper_eq (c : Char) :
    c.toUpper =
      if c.toNat ≥ 97 ∧ c.toNat ≤ 122 then Char.ofNat (c.toNat - 32) else c := rfl

theorem char_toUpper_idem (c : Char) : c.toUpper.toUpper = c.toUpper := by
  by_cases h : c.toNat ≥ 97 ∧ c.toNat ≤ 122
  · have h1 : c.toUpper = Char.ofNat (c.toNat - 32) := by
      rw [char_toUpper_eq, if_pos h]
    have hv : (c.toNat - 32).isValidChar := Or.inl (by omega)
    rw [h1, char_toUpper_eq, char_toNat_ofNat hv, if_neg (by omega)]
  · have h1 : c.toUpper = c := by rw [char_toUpper_eq, if_neg h]
    rw [h1, h1]

theorem pyIsSpace_toUpper (c : Char) : pyIsSpace c.toUpper = pyIsSpace c := by
  by_cases h : c.toNat ≥ 97 ∧ c.toNat ≤ 122
  · have h1 : c.toUpper = Char.ofNat (c.toNat - 32) := by
      rw [char_toUpper_eq, if_pos h]
    have hv : (c.toNat - 32).isValidChar := Or.inl (by omega)
    rw [h1]
    simp only [pyIsSpace, char_toNat_ofNat hv]
    rw [decide_eq_decide]
    omega
  · have h1 : c.toUpper = c := by rw [char_toUpper_eq, if_neg h]
    rw [h1]

theorem dropWhile_rdropWhile_dropWhile {α : Type} (p : α → Bool) (l : List α) :
    List.dropWhile p (List.rdropWhile p (List.dropWhile p l)) =
      List.rdropWhile p (List.dropWhile p l) := by
  rw [List.dropWhile_eq_self_iff]
  intro hl
  have hpre : List.rdropWhile p (List.dropWhile p l) <+: List.dropWhile p l :=
    List.rdropWhile_prefix p (List.dropWhile p l)
  have hlen : 0 < (List.dropWhile p l).length := Nat.lt_of_lt_of_le hl hpre.length_le
  have hget := hpre.getElem hl
  rw [List.get_eq_getElem, hget]
  have h3 := List.dropWhile_get_zero_not (p := p) l hlen
  rw [List.get_eq_getElem] at h3
  exact h3

theorem pyStripChars_idem (l : List Char) :
    pyStripChars (pyStripChars l) = pyStripChars l := by
  unfold pyStripChars
  rw [dropWhile_rdropWhile_dropWhile, List.rdropWhile_idempotent]

theorem pyUpperChars_idem (l : List Char) :
    pyUpperChars (pyUpperChars l) = pyUpperChars l := by
  unfold pyUpperChars
  rw [List.map_map]
  congr 1
  funext c
  exact char_toUpper_idem c

theorem pyStrip_upper_comm (l : List Char) :
    pyStripChars (pyUpperChars l) = pyUpperChars (pyStripChars l) := by
  have hpf : (pyIsSpace ∘ Char.toUpper) = pyIsSpace := funext pyIsSpace_toUpper
  unfold pyStripChars pyUpperChars List.rdropWhile
  rw [List.dropWhile_map, hpf, ← List.map_reverse, List.dropWhile_map, hpf,
    ← List.map_reverse]

/-! ### Claim theorems -/

/-- C8: the symbol normalization step of both tools (`symbol.upper().strip()`)
is idempotent: normalizing an already-normalized symbol yields it unchanged. -/
theorem normalizeSymbol_idem (s : String) :
    normalizeSymbol (normalizeSymbol s) = normalizeSymbol s := by
  unfold normalizeSymbol
  show String.mk (pyStripChars (pyUpperChars (pyStripChars (pyUpperChars s.data)))) =
    String.mk (pyStripChars (pyUpperChars s.data))
  rw [← pyStrip_upper_comm, pyUpperChars_idem, pyStripChars_idem]

/-- C1: for every endpoint path fragment, credential state and outcome of
the network call, `make_fmp_request` returns a value — either an error
dictionary of shape `{error: <message>}` or the decoded JSON body of a 2xx
response — and never propagates an exception: every failure path is
represented as data. -/
theorem make_fmp_request_never_raises
    (apiKey : Option String) (endpoint : String) (net : String → HttpOutcome) :
    (∃ m, make_fmp_request apiKey endpoint net =
      .ok (.dict [("error", PyVal.str m)])) ∨
    (∃ v, net (fmpUrl endpoint) = .success (.valid v) ∧
      make_fmp_request apiKey endpoint net = .ok v) := by
  unfold make_fmp_request
  by_cases hk : keyMissing apiKey = true
  · rw [if_pos hk]
    exact .inl ⟨_, rfl⟩
  · rw [if_neg hk]
    cases hnet : net (fmpUrl endpoint) with
    | exn m => exact .inl ⟨_, rfl⟩
    | success b =>
      cases b with
      | invalid => exact .inl ⟨_, rfl⟩
      | valid v => exact .inr ⟨v, rfl, rfl⟩

/-- C2 (counterexample): at the input the claim describes — credential
configured, 2xx status, body not valid JSON — `make_fmp_request` returns
the uniform error dictionary; it does not propagate an uncaught failure.
Since requests 2.27, `requests.exceptions.JSONDecodeError` subclasses
`requests.RequestException` and is caught by the except clause. -/
theorem make_fmp_request_invalid_json_caught_cx :
    make_fmp_request (some "key") "quote/AAPL" (fun _ => .success .invalid) =
      .ok (.dict [("error",
        PyVal.str "API request failed: Expecting value: line 1 column 1 (char 0)")]) := rfl

/-- C2 (amended): when the credential is configured and the HTTP response
is 2xx with a body that is not valid JSON, `make_fmp_request` returns the
uniform error value `{error: "API request failed: <details>"}` — the
JSON-decode failure is caught, not propagated. -/
theorem make_fmp_request_invalid_json_to_error_dict
    (apiKey : Option String) (endpoint : String) (net : String → HttpOutcome)
    (hk : keyMissing apiKey = false)
    (hnet : net (fmpUrl endpoint) = .success .invalid) :
    make_fmp_request apiKey endpoint net =
      .ok (.dict [("error",
        .str ("API request failed: " ++ jsonDecodeErrorDetail))]) := by
  unfold make_fmp_request
  rw [hk, hnet]
  rfl

theorem make_fmp_request_invalid_json_to_error_dict_witness :
    make_fmp_request (some "key") "profile/AAPL" (fun _ => .success .invalid) =
      .ok (.dict [("error",
        .str ("API request failed: " ++ jsonDecodeErrorDetail))]) :=
  make_fmp_request_invalid_json_to_error_dict (some "key") "profile/AAPL"
    (fun _ => .success .invalid) rfl rfl

/-- C4: if the credential is unset (Python-falsy), both tools return the
string "Error: FMP_API_KEY environment variable not set" — which contains
"FMP_API_KEY" — and the result is independent of the network oracle, so no
network call is attempted. -/
theorem credential_missing_short_circuits
    (symbol : String) (apiKey : Option String) (net net2 : String → HttpOutcome)
    (hk : keyMissing apiKey = true) :
    get_stock_quote symbol apiKey net =
      .ok ("Error: " ++ "FMP_API_KEY" ++ " environment variable not set") ∧
    get_company_profile symbol apiKey net =
      .ok ("Error: " ++ "FMP_API_KEY" ++ " environment variable not set") ∧
    get_stock_quote symbol apiKey net = get_stock_quote symbol apiKey net2 ∧
    get_company_profile symbol apiKey net = get_company_profile symbol apiKey net2 := by
  have k1 : ∀ (e : String) (o : String → HttpOutcome),
      make_fmp_request apiKey e o =
        .ok (.dict [("error", .str "FMP_API_KEY environment variable not set")]) := by
    intro e o
    unfold make_fmp_request
    rw [hk]
    rfl
  refine ⟨?_, ?_, ?_, ?_⟩
  · show (make_fmp_request apiKey ("quote/" ++ normalizeSymbol symbol) net).bind
      (formatQuote (normalizeSymbol symbol)) = _
    rw [k1]
    rfl
  · show (make_fmp_request apiKey ("profile/" ++ normalizeSymbol symbol) net).bind
      (formatProfile (normalizeSymbol symbol)) = _
    rw [k1]
    rfl
  · show (make_fmp_request apiKey ("quote/" ++ normalizeSymbol symbol) net).bind
        (formatQuote (normalizeSymbol symbol)) =
      (make_fmp_request apiKey ("quote/" ++ normalizeSymbol symbol) net2).bind
        (formatQuote (normalizeSymbol symbol))
    rw [k1, k1]
  · show (make_fmp_request apiKey ("profile/" ++ normalizeSymbol symbol) net).bind
        (formatProfile (normalizeSymbol symbol)) =
      (make_fmp_request apiKey ("profile/" ++ normalizeSymbol symbol) net2).bind
        (formatProfile (normalizeSymbol symbol))
    rw [k1, k1]

theorem credential_missing_short_circuits_witness :
    get_stock_quote "aapl" none (fun _ => .exn "x") =
      .ok ("Error: " ++ "FMP_API_KEY" ++ " environment variable not set") ∧
    get_company_profile "aapl" none (fun _ => .exn "x") =
      .ok ("Error: " ++ "FMP_API_KEY" ++ " environment variable not set") ∧
    get_stock_quote "aapl" none (fun _ => .exn "x") =
      get_stock_quote "aapl" none (fun _ => .exn "y") ∧
    get_company_profile "aapl" none (fun _ => .exn "x") =
      get_company_profile "aapl" none (fun _ => .exn "y") :=
  credential_missing_short_circuits "aapl" none (fun _ => .exn "x")
    (fun _ => .exn "y") rfl

/-- C5: if the gateway result is a dictionary containing the error key with
message m, both formatters return exactly the string "Error: " followed
by m. -/
theorem format_error_key (symbol : String) (d : Record) (m : String)
    (h : rlookup d "error" = some (.str m)) :
    formatQuote symbol (.dict d) = .ok ("Error: " ++ m) ∧
    formatProfile symbol (.dict d) = .ok ("Error: " ++ m) := by
  constructor
  · simp only [formatQuote, h, pyStr]
  · simp only [formatProfile, h, pyStr]

theorem format_error_key_witness :
    formatQuote "AAPL" (.dict [("error", PyVal.str "boom")]) = .ok "Error: boom" ∧
    formatProfile "AAPL" (.dict [("error", PyVal.str "boom")]) = .ok "Error: boom" :=
  format_error_key "AAPL" [("error", PyVal.str "boom")] "boom" rfl

/-- C6: on an empty-list gateway result, `get_stock_quote` returns exactly
"No data found for symbol: X" and `get_company_profile` returns exactly
"No profile found for symbol: X", where X is the normalized (uppercased,
stripped) symbol. -/
theorem empty_result_not_found
    (symbol : String) (apiKey : Option String) (net : String → HttpOutcome)
    (hk : keyMissing apiKey = false)
    (hq : net (fmpUrl ("quote/" ++ normalizeSymbol symbol)) =
      .success (.valid (.list [])))
    (hp : net (fmpUrl ("profile/" ++ normalizeSymbol symbol)) =
      .success (.valid (.list []))) :
    get_stock_quote symbol apiKey net =
      .ok ("No data found for symbol: " ++ normalizeSymbol symbol) ∧
    get_company_profile symbol apiKey net =
      .ok ("No profile found for symbol: " ++ normalizeSymbol symbol) := by
  constructor
  · show (make_fmp_request apiKey ("quote/" ++ normalizeSymbol symbol) net).bind
      (formatQuote (normalizeSymbol symbol)) = _
    unfold make_fmp_request
    rw [hk, hq]
    rfl
  · show (make_fmp_request apiKey ("profile/" ++ normalizeSymbol symbol) net).bind
      (formatProfile (normalizeSymbol symbol)) = _
    unfold make_fmp_request
    rw [hk, hp]
    rfl

theorem empty_result_not_found_witness :
    get_stock_quote " aapl " (some "key") (fun _ => .success (.valid (.list []))) =
      .ok "No data found for symbol: AAPL" ∧
    get_company_profile " aapl " (some "key") (fun _ => .success (.valid (.list []))) =
      .ok "No profile found for symbol: AAPL" :=
  empty_result_not_found " aapl " (some "key") (fun _ => .success (.valid (.list [])))
    rfl rfl rfl

/-- C9: each formatter renders exactly the head of a non-empty list result,
and short-circuits an empty list to the not-found string; the first-element
access on the success path is therefore in bounds and reached only for
non-empty, error-free results. -/
theorem success_path_head_access (symbol : String) (items : List Record)
    (h : items ≠ []) :
    formatQuote symbol (.list items) = renderQuote symbol (items.head h) ∧
    formatProfile symbol (.list items) = renderProfile symbol (items.head h) ∧
    formatQuote symbol (.list []) = .ok ("No data found for symbol: " ++ symbol) ∧
    formatProfile symbol (.list []) =
      .ok ("No profile found for symbol: " ++ symbol) := by
  obtain ⟨q, rest, rfl⟩ := List.exists_cons_of_ne_nil h
  exact ⟨rfl, rfl, rfl, rfl⟩

theorem success_path_head_access_witness :
    formatQuote "A" (.list [[("name", PyVal.str "X")]]) =
      renderQuote "A" [("name", PyVal.str "X")] ∧
    formatProfile "A" (.list [[("name", PyVal.str "X")]]) =
      renderProfile "A" [("name", PyVal.str "X")] ∧
    formatQuote "A" (.list []) = .ok "No data found for symbol: A" ∧
    formatProfile "A" (.list []) = .ok "No profile found for symbol: A" :=
  success_path_head_access "A" [[("name", PyVal.str "X")]] (by decide)

/-- C7: a description of at least 500 characters renders as exactly its
first 500 characters followed by the literal ellipsis. -/
theorem description_truncated_at_500 (p : Record) (d : String)
    (hd : rlookup p "description" = some (.str d)) (_hlen : 500 ≤ d.length) :
    profileDescriptionSection p = .ok (String.mk (d.data.take 500) ++ "...") := by
  unfold profileDescriptionSection rget
  rw [hd]
  rfl

set_option maxRecDepth 8000 in
theorem description_truncated_at_500_witness :
    profileDescriptionSection
        [("description", PyVal.str (String.mk (List.replicate 600 'a')))] =
      .ok (String.mk (List.replicate 500 'a') ++ "...") := by
  have h := description_truncated_at_500
    [("description", PyVal.str (String.mk (List.replicate 600 'a')))]
    (String.mk (List.replicate 600 'a')) rfl (by decide)
  rw [h]
  rfl

/-- C10: a record without a description field renders the description
section as exactly "No description available..." — the literal fallback
string, with the truncation and the appended ellipsis applied to it. -/
theorem description_fallback (p : Record)
    (h : rlookup p "description" = none) :
    profileDescriptionSection p = .ok "No description available..." := by
  unfold profileDescriptionSection rget
  rw [h]
  rfl

theorem description_fallback_witness :
    profileDescriptionSection [("companyName", PyVal.str "X")] =
      .ok "No description available..." :=
  description_fallback [("companyName", PyVal.str "X")] rfl

/-- C3 (counterexample): on a non-empty profile record without the
fullTimeEmployees field, `get_company_profile` does not return a report:
applying thousands grouping to the string fallback "N/A" raises a
ValueError, which propagates. -/
theorem get_company_profile_missing_employees_cx :
    get_company_profile "aapl" (some "key")
        (fun _ => .success (.valid (.list [[("companyName", PyVal.str "Test Corp")]]))) =
      .error "ValueError: Cannot specify comma with type str" := rfl

/-- C3 (amended): for every profile record lacking the fullTimeEmployees
field (and whose mktCap field, if present, is numeric), the profile
rendering fails with the ValueError raised by applying thousands grouping
to the string fallback "N/A"; no report is produced. -/
theorem renderProfile_fails_without_employees (symbol : String) (p : Record)
    (hemp : rlookup p "fullTimeEmployees" = none)
    (hmk : ∀ v, rlookup p "mktCap" = some v → ∃ n, v = PyVal.int n) :
    renderProfile symbol p =
      .error "ValueError: Cannot specify comma with type str" := by
  obtain ⟨s, h1⟩ : ∃ s, profileMktCap p = .ok s := by
    unfold profileMktCap rget
    cases hv : rlookup p "mktCap" with
    | none => exact ⟨intComma 0, rfl⟩
    | some v =>
      obtain ⟨n, rfl⟩ := hmk v hv
      exact ⟨intComma n, rfl⟩
  have h2 : profileEmployees p =
      .error "ValueError: Cannot specify comma with type str" := by
    unfold profileEmployees rget
    rw [hemp]
    rfl
  simp only [renderProfile, h1, except_bind_ok, h2, except_bind_err]

theorem renderProfile_fails_without_employees_witness :
    renderProfile "AAPL" [("companyName", PyVal.str "Test Corp")] =
      .error "ValueError: Cannot specify comma with type str" := by
  apply renderProfile_fails_without_employees
  · rfl
  · intro v hv
    rw [show rlookup [("companyName", PyVal.str "Test Corp")] "mktCap" =
      (none : Option PyVal) from rfl] at hv
    exact Option.noConfusion hv

end StockMcp
